import Mathlib

/-!
Verification of the update-coordination core of the `apsystems_ezhi_local`
integration (`custom_components/apsystems_ezhi_local/__init__.py`).

The embedding mirrors the Python source:
* `updateData` embeds `ApSystemsDataCoordinator._async_update_data` (lines 98-111);
* `classify` embeds the `try/except InverterNotAvailable/except Exception/else`
  outcome arms of `_async_refresh` (lines 133-146);
* `refresh` embeds `ApSystemsDataCoordinator._async_refresh` (lines 113-164);
* `set_power_service` embeds the service closure registered in
  `async_setup_entry` (lines 39-48);
* `coordInit` embeds the coordinator-owned part of
  `ApSystemsDataCoordinator.__init__` (lines 82-96).

Opaque device payloads (`ReturnOutputData`, `ReturnDeviceInfo`) are embedded
as `Nat`.  Python exceptions reaching this code are embedded by `PyExc`; a
computation that may raise is embedded as a `PyResult`.  Side effects
(device-client calls, log lines, scheduling, listener notification) are
recorded in an effect trace, in program order.
-/

/-- Exceptions that can flow through the coordinator: the two classes caught
by `_async_update_data`'s outer `except (TimeoutError,
client_exceptions.ClientConnectionError)`, the integration's own
`InverterNotAvailable`, and any other `Exception` (identified by a code). -/
inductive PyExc where
  | timeoutError
  | clientConnectionError
  | inverterNotAvailable
  | other (code : Nat)
  deriving DecidableEq, Repr

/-- Result of a Python computation that may raise: a normal return or a
raised exception. -/
inductive PyResult (α : Type) where
  | ok (a : α)
  | exn (e : PyExc)
  deriving DecidableEq, Repr

/-- Observable side effects of the coordinator and the set_power service,
recorded in program order. -/
inductive Effect where
  | unsubRefresh
  | debounceCancel
  | callGetDeviceInfo
  | callGetOutputData
  | callSetPower (v : Int)
  | logDebug
  | logInfo
  | logWarning
  | logError
  | scheduleRefresh
  | notifyListeners
  deriving DecidableEq, Repr

/-- Coordinator state: the fields of `ApSystemsDataCoordinator` (and its
`DataUpdateCoordinator` base) that `_async_update_data` and `_async_refresh`
read or write.  `data` is the cached Snapshot. -/
structure CoordState where
  data : Option Nat
  last_update_success : Bool
  last_exception : Option PyExc
  device_info : Option Nat
  always_update : Bool
  shutdown_requested : Bool
  deriving DecidableEq, Repr

/-- Host-environment facts read by `_async_refresh`: `self.hass.is_stopping`,
whether `self._listeners` is non-empty, and whether debug logging is enabled
(`self.logger.isEnabledFor(logging.DEBUG)`). -/
structure Env where
  is_stopping : Bool
  has_listeners : Bool
  debug_enabled : Bool
  deriving DecidableEq, Repr

/-- One poll's device-client behaviour: what `await self.api.get_device_info()`
and `await self.api.get_output_data()` would each return or raise. -/
structure ClientBehavior where
  deviceInfoResult : PyResult Nat
  outputDataResult : PyResult Nat
  deriving DecidableEq, Repr

/-- Output of `_async_update_data`: the coordinator state after the call (it
may have written `self.device_info`), the effect trace, and the returned
data or the raised exception. -/
structure UpdateOut where
  st : CoordState
  effs : List Effect
  res : PyResult Nat
  deriving Repr

/-- Embedding of `ApSystemsDataCoordinator._async_update_data` (lines 98-111).
If `self.device_info is None`, it first attempts `get_device_info()`; any
`Exception` from that attempt is caught by the inner handler and logged as a
warning.  Then `get_output_data()` is awaited; a `TimeoutError` or
`ClientConnectionError` from it is converted by the outer handler into a
raised `InverterNotAvailable`, any other exception propagates unchanged, and
a normal result is returned. -/
def updateData (beh : ClientBehavior) (st : CoordState) : UpdateOut :=
  let stepInfo : CoordState × List Effect :=
    if st.device_info = none then
      match beh.deviceInfoResult with
      | PyResult.ok info =>
          ({ st with device_info := some info }, [Effect.callGetDeviceInfo])
      | PyResult.exn _ =>
          (st, [Effect.callGetDeviceInfo, Effect.logWarning])
    else (st, [])
  match beh.outputDataResult with
  | PyResult.ok d =>
      ⟨stepInfo.1, stepInfo.2 ++ [Effect.callGetOutputData], PyResult.ok d⟩
  | PyResult.exn PyExc.timeoutError =>
      ⟨stepInfo.1, stepInfo.2 ++ [Effect.callGetOutputData],
        PyResult.exn PyExc.inverterNotAvailable⟩
  | PyResult.exn PyExc.clientConnectionError =>
      ⟨stepInfo.1, stepInfo.2 ++ [Effect.callGetOutputData],
        PyResult.exn PyExc.inverterNotAvailable⟩
  | PyResult.exn e =>
      ⟨stepInfo.1, stepInfo.2 ++ [Effect.callGetOutputData], PyResult.exn e⟩

/-- The guard at the top of `_async_refresh` (line 123):
`self._shutdown_requested or scheduled and self.hass.is_stopping`
(Python `and` binds tighter than `or`). -/
def abortGuard (st : CoordState) (env : Env) (scheduled : Bool) : Bool :=
  st.shutdown_requested || (scheduled && env.is_stopping)

/-- `auth_failed` is initialised to `False` at line 129 and never reassigned. -/
def authFailed : Bool := false

/-- Embedding of the `try ... except InverterNotAvailable ... except
Exception ... else` arms of `_async_refresh` (lines 133-146), applied to the
outcome of `_async_update_data`.  On a normal return the Snapshot is
assigned; the `else` clause then tests
`not self.last_update_success and not exc_triggered` (with `exc_triggered`
necessarily `False` on this path) and, when it holds, marks success and logs
the recovery notice.  `except InverterNotAvailable` only clears the success
flag; `except Exception` additionally records `last_exception` and logs at
error severity. -/
def classify (u : UpdateOut) : CoordState × List Effect :=
  match u.res with
  | PyResult.ok d =>
      let exc_triggered := false
      let stA := { u.st with data := some d }
      if !stA.last_update_success && !exc_triggered then
        ({ stA with last_update_success := true }, [Effect.logInfo])
      else
        (stA, [])
  | PyResult.exn PyExc.inverterNotAvailable =>
      ({ u.st with last_update_success := false }, [])
  | PyResult.exn e =>
      ({ u.st with last_exception := some e, last_update_success := false },
        [Effect.logError])

/-- Embedding of the `finally` block of `_async_refresh` (lines 147-156): the
timing debug line when debug logging is enabled, then
`self._schedule_refresh()` when `not auth_failed and self._listeners and not
self.hass.is_stopping`. -/
def finallyEffs (env : Env) : List Effect :=
  (if env.debug_enabled then [Effect.logDebug] else []) ++
    (if !authFailed && env.has_listeners && !env.is_stopping then
      [Effect.scheduleRefresh]
    else [])

/-- The notify condition at lines 159-163:
`self.always_update or self.last_update_success != previous_update_success
or previous_data != self.data`. -/
def notifyDecision (st2 : CoordState) (previous_update_success : Bool)
    (previous_data : Option Nat) : Bool :=
  st2.always_update || (st2.last_update_success != previous_update_success)
    || (previous_data != st2.data)

/-- Embedding of `ApSystemsDataCoordinator._async_refresh` (lines 113-164).
It first cancels the pending scheduled refresh and the debounced refresh,
then aborts if the shutdown guard holds; otherwise it snapshots
`previous_update_success` and `previous_data`, runs `_async_update_data`,
classifies the outcome, runs the `finally` block, returns early (without
notifying) when this attempt and the previous one both failed, and otherwise
notifies listeners when `notifyDecision` holds.  The return type records
that the Python coroutine could in principle propagate an exception; every
branch in fact returns normally. -/
def refresh (beh : ClientBehavior) (env : Env) (scheduled : Bool)
    (st : CoordState) : PyResult (CoordState × List Effect) :=
  let eff0 := [Effect.unsubRefresh, Effect.debounceCancel]
  if abortGuard st env scheduled then
    PyResult.ok (st, eff0)
  else
    let previous_update_success := st.last_update_success
    let previous_data := st.data
    let u := updateData beh st
    let c := classify u
    let effs := eff0 ++ u.effs ++ c.2 ++ finallyEffs env
    if !c.1.last_update_success && !previous_update_success then
      PyResult.ok (c.1, effs)
    else if notifyDecision c.1 previous_update_success previous_data then
      PyResult.ok (c.1, effs ++ [Effect.notifyListeners])
    else
      PyResult.ok (c.1, effs)

/-- The classification `_async_refresh` gives this invocation's poll: the
`res` component of `_async_update_data`'s outcome. -/
def pollResult (beh : ClientBehavior) (st : CoordState) : PyResult Nat :=
  (updateData beh st).res

/-- Embedding of the coordinator-owned part of
`ApSystemsDataCoordinator.__init__` (lines 82-96): the `interval is None`
default of 10 seconds passed to the base class, and the fields
`always_update = True` and `device_info = None`.  Fields initialised by the
host base class are taken from `base`. -/
def coordInit (base : CoordState) (interval : Option Int) :
    Int × CoordState :=
  let itv := match interval with
    | none => 10
    | some i => i
  (itv, { base with always_update := true, device_info := none })

/-- Embedding of the `set_power_service` closure (lines 39-48) registered by
`async_setup_entry`: log the request at debug severity; if the requested
power is below `minValue`, warn and clamp up; `elif` it is above `maxValue`,
warn and clamp down; finally `await api.set_power(power)`, whose outcome is
returned unhandled. -/
def set_power_service (minValue maxValue : Int)
    (setPower : Int → PyResult Unit) (power : Int) :
    List Effect × PyResult Unit :=
  let eff0 := [Effect.logDebug]
  let clamped : List Effect × Int :=
    if power < minValue then ([Effect.logWarning], minValue)
    else if power > maxValue then ([Effect.logWarning], maxValue)
    else ([], power)
  (eff0 ++ clamped.1 ++ [Effect.callSetPower clamped.2], setPower clamped.2)

/-- Modelled from the spec: the named constants `MIN_VALUE` and `MAX_VALUE`
live in `const.py`, which is not among the provided sources; the spec's
examples fix `MIN_VALUE = 20` and `MAX_VALUE = 100`. -/
def MIN_VALUE : Int := 20

/-- Modelled from the spec: see `MIN_VALUE`. -/
def MAX_VALUE : Int := 100

/-- The power values forwarded to the device client in an effect trace. -/
def sentPowers (effs : List Effect) : List Int :=
  effs.filterMap fun e =>
    match e with
    | Effect.callSetPower v => some v
    | _ => none

/-- A lifetime of the coordinator: `_async_refresh` run over a sequence of
invocations, each with its own device-client behaviour, host-environment
facts and `scheduled` flag, threading the state and concatenating the effect
traces.  An exception from any step would propagate. -/
def runRefresh : List (ClientBehavior × Env × Bool) → CoordState →
    PyResult (CoordState × List Effect)
  | [], st => PyResult.ok (st, [])
  | step :: rest, st =>
    match refresh step.1 step.2.1 step.2.2 st with
    | PyResult.exn e => PyResult.exn e
    | PyResult.ok (st1, effs) =>
      match runRefresh rest st1 with
      | PyResult.exn e => PyResult.exn e
      | PyResult.ok (st2, effs2) => PyResult.ok (st2, effs ++ effs2)

/-! ### Basic lemmas about the embedded operations -/

theorem updateData_st (beh : ClientBehavior) (st : CoordState) :
    (updateData beh st).st =
      if st.device_info = none then
        match beh.deviceInfoResult with
        | PyResult.ok info => { st with device_info := some info }
        | PyResult.exn _ => st
      else st := by
  unfold updateData
  cases beh.outputDataResult with
  | ok d => cases hdi : st.device_info <;> cases beh.deviceInfoResult <;> simp [hdi]
  | exn e =>
      cases e <;>
        (cases hdi : st.device_info <;> cases beh.deviceInfoResult <;> simp [hdi])

theorem updateData_effs (beh : ClientBehavior) (st : CoordState) :
    (updateData beh st).effs =
      (if st.device_info = none then
        match beh.deviceInfoResult with
        | PyResult.ok _ => [Effect.callGetDeviceInfo]
        | PyResult.exn _ => [Effect.callGetDeviceInfo, Effect.logWarning]
      else []) ++ [Effect.callGetOutputData] := by
  unfold updateData
  cases beh.outputDataResult with
  | ok d => cases hdi : st.device_info <;> cases beh.deviceInfoResult <;> simp [hdi]
  | exn e =>
      cases e <;>
        (cases hdi : st.device_info <;> cases beh.deviceInfoResult <;> simp [hdi])

theorem updateData_res (beh : ClientBehavior) (st : CoordState) :
    (updateData beh st).res =
      match beh.outputDataResult with
      | PyResult.ok d => PyResult.ok d
      | PyResult.exn PyExc.timeoutError => PyResult.exn PyExc.inverterNotAvailable
      | PyResult.exn PyExc.clientConnectionError =>
          PyResult.exn PyExc.inverterNotAvailable
      | PyResult.exn e => PyResult.exn e := by
  unfold updateData
  cases beh.outputDataResult with
  | ok d => simp
  | exn e => cases e <;> simp

theorem classify_ok (u : UpdateOut) (d : Nat) (h : u.res = PyResult.ok d) :
    classify u =
      if !u.st.last_update_success then
        ({ u.st with data := some d, last_update_success := true },
          [Effect.logInfo])
      else
        ({ u.st with data := some d }, []) := by
  unfold classify
  rw [h]
  cases hl : u.st.last_update_success <;> simp [hl]

theorem classify_unavailable (u : UpdateOut)
    (h : u.res = PyResult.exn PyExc.inverterNotAvailable) :
    classify u = ({ u.st with last_update_success := false }, []) := by
  unfold classify
  rw [h]

theorem classify_other (u : UpdateOut) (e : PyExc)
    (h : u.res = PyResult.exn e) (hne : e ≠ PyExc.inverterNotAvailable) :
    classify u =
      ({ u.st with last_exception := some e, last_update_success := false },
        [Effect.logError]) := by
  unfold classify
  rw [h]
  cases e <;> simp_all

theorem refresh_eq (beh : ClientBehavior) (env : Env) (scheduled : Bool)
    (st : CoordState) (h : abortGuard st env scheduled = false) :
    refresh beh env scheduled st =
      (if !(classify (updateData beh st)).1.last_update_success
          && !st.last_update_success then
        PyResult.ok ((classify (updateData beh st)).1,
          [Effect.unsubRefresh, Effect.debounceCancel]
            ++ (updateData beh st).effs ++ (classify (updateData beh st)).2
            ++ finallyEffs env)
      else if notifyDecision (classify (updateData beh st)).1
          st.last_update_success st.data then
        PyResult.ok ((classify (updateData beh st)).1,
          ([Effect.unsubRefresh, Effect.debounceCancel]
            ++ (updateData beh st).effs ++ (classify (updateData beh st)).2
            ++ finallyEffs env) ++ [Effect.notifyListeners])
      else
        PyResult.ok ((classify (updateData beh st)).1,
          [Effect.unsubRefresh, Effect.debounceCancel]
            ++ (updateData beh st).effs ++ (classify (updateData beh st)).2
            ++ finallyEffs env)) := by
  unfold refresh
  rw [h]
  simp

theorem refresh_state (beh : ClientBehavior) (env : Env) (scheduled : Bool)
    (st st' : CoordState) (effs : List Effect)
    (h : abortGuard st env scheduled = false)
    (hr : refresh beh env scheduled st = PyResult.ok (st', effs)) :
    st' = (classify (updateData beh st)).1 := by
  rw [refresh_eq beh env scheduled st h] at hr
  split at hr <;> [skip; split at hr] <;>
    · simp only [PyResult.ok.injEq, Prod.mk.injEq] at hr
      exact hr.1.symm

theorem refresh_effs (beh : ClientBehavior) (env : Env) (scheduled : Bool)
    (st st' : CoordState) (effs : List Effect)
    (h : abortGuard st env scheduled = false)
    (hr : refresh beh env scheduled st = PyResult.ok (st', effs)) :
    ∃ tail, (tail = [] ∨ tail = [Effect.notifyListeners]) ∧
      effs = [Effect.unsubRefresh, Effect.debounceCancel]
        ++ (updateData beh st).effs ++ (classify (updateData beh st)).2
        ++ finallyEffs env ++ tail := by
  rw [refresh_eq beh env scheduled st h] at hr
  split at hr
  · simp only [PyResult.ok.injEq, Prod.mk.injEq] at hr
    exact ⟨[], Or.inl rfl, by simp [hr.2.symm]⟩
  · split at hr
    · simp only [PyResult.ok.injEq, Prod.mk.injEq] at hr
      exact ⟨[Effect.notifyListeners], Or.inr rfl, by simp [hr.2.symm]⟩
    · simp only [PyResult.ok.injEq, Prod.mk.injEq] at hr
      exact ⟨[], Or.inl rfl, by simp [hr.2.symm]⟩

theorem notify_not_in_updateData (beh : ClientBehavior) (st : CoordState) :
    Effect.notifyListeners ∉ (updateData beh st).effs := by
  rw [updateData_effs]
  cases hdi : st.device_info <;> cases beh.deviceInfoResult <;> simp

theorem schedule_not_in_updateData (beh : ClientBehavior) (st : CoordState) :
    Effect.scheduleRefresh ∉ (updateData beh st).effs := by
  rw [updateData_effs]
  cases hdi : st.device_info <;> cases beh.deviceInfoResult <;> simp

theorem classify_effs_cases (u : UpdateOut) :
    (classify u).2 = [] ∨ (classify u).2 = [Effect.logInfo]
      ∨ (classify u).2 = [Effect.logError] := by
  unfold classify
  cases hres : u.res with
  | ok d => cases hl : u.st.last_update_success <;> simp [hl]
  | exn e => cases e <;> simp

theorem notify_not_in_classify (u : UpdateOut) :
    Effect.notifyListeners ∉ (classify u).2 := by
  rcases classify_effs_cases u with h | h | h <;> simp [h]

theorem schedule_not_in_classify (u : UpdateOut) :
    Effect.scheduleRefresh ∉ (classify u).2 := by
  rcases classify_effs_cases u with h | h | h <;> simp [h]

theorem notify_not_in_finallyEffs (env : Env) :
    Effect.notifyListeners ∉ finallyEffs env := by
  unfold finallyEffs
  cases env.debug_enabled <;>
    cases hc : (!authFailed && env.has_listeners && !env.is_stopping) <;> simp

theorem schedule_in_finallyEffs (env : Env) :
    Effect.scheduleRefresh ∈ finallyEffs env ↔
      env.has_listeners = true ∧ env.is_stopping = false := by
  unfold finallyEffs authFailed
  cases hd : env.debug_enabled <;> cases hl : env.has_listeners <;>
    cases hs : env.is_stopping <;> simp

theorem deviceInfoCall_not_in_classify (u : UpdateOut) :
    Effect.callGetDeviceInfo ∉ (classify u).2 := by
  rcases classify_effs_cases u with h | h | h <;> simp [h]

theorem deviceInfoCall_not_in_finallyEffs (env : Env) :
    Effect.callGetDeviceInfo ∉ finallyEffs env := by
  unfold finallyEffs
  cases env.debug_enabled <;>
    cases hc : (!authFailed && env.has_listeners && !env.is_stopping) <;> simp

theorem classify_st_device_info (u : UpdateOut) :
    (classify u).1.device_info = u.st.device_info := by
  unfold classify
  cases hres : u.res with
  | ok d => cases hl : u.st.last_update_success <;> simp [hl]
  | exn e => cases e <;> simp

theorem classify_st_always_update (u : UpdateOut) :
    (classify u).1.always_update = u.st.always_update := by
  unfold classify
  cases hres : u.res with
  | ok d => cases hl : u.st.last_update_success <;> simp [hl]
  | exn e => cases e <;> simp

theorem classify_st_shutdown (u : UpdateOut) :
    (classify u).1.shutdown_requested = u.st.shutdown_requested := by
  unfold classify
  cases hres : u.res with
  | ok d => cases hl : u.st.last_update_success <;> simp [hl]
  | exn e => cases e <;> simp

theorem updateData_st_data (beh : ClientBehavior) (st : CoordState) :
    (updateData beh st).st.data = st.data := by
  rw [updateData_st]
  cases hdi : st.device_info <;> cases beh.deviceInfoResult <;> simp

theorem updateData_st_lus (beh : ClientBehavior) (st : CoordState) :
    (updateData beh st).st.last_update_success = st.last_update_success := by
  rw [updateData_st]
  cases hdi : st.device_info <;> cases beh.deviceInfoResult <;> simp

theorem updateData_st_exc (beh : ClientBehavior) (st : CoordState) :
    (updateData beh st).st.last_exception = st.last_exception := by
  rw [updateData_st]
  cases hdi : st.device_info <;> cases beh.deviceInfoResult <;> simp

theorem updateData_st_always (beh : ClientBehavior) (st : CoordState) :
    (updateData beh st).st.always_update = st.always_update := by
  rw [updateData_st]
  cases hdi : st.device_info <;> cases beh.deviceInfoResult <;> simp

theorem classify_st_data_exn (u : UpdateOut) (e : PyExc)
    (h : u.res = PyResult.exn e) : (classify u).1.data = u.st.data := by
  unfold classify
  rw [h]
  cases e <;> simp

theorem classify_st_data_ok (u : UpdateOut) (d : Nat)
    (h : u.res = PyResult.ok d) : (classify u).1.data = some d := by
  rw [classify_ok u d h]
  cases hl : u.st.last_update_success <;> simp [hl]

theorem classify_st_lus_exn (u : UpdateOut) (e : PyExc)
    (h : u.res = PyResult.exn e) :
    (classify u).1.last_update_success = false := by
  unfold classify
  rw [h]
  cases e <;> simp

theorem classify_st_lus_ok (u : UpdateOut) (d : Nat)
    (h : u.res = PyResult.ok d) :
    (classify u).1.last_update_success = true := by
  rw [classify_ok u d h]
  cases hl : u.st.last_update_success <;> simp [hl]

theorem classify_st_exc_ok (u : UpdateOut) (d : Nat)
    (h : u.res = PyResult.ok d) :
    (classify u).1.last_exception = u.st.last_exception := by
  rw [classify_ok u d h]
  cases hl : u.st.last_update_success <;> simp [hl]

theorem classify_st_exc_unavailable (u : UpdateOut)
    (h : u.res = PyResult.exn PyExc.inverterNotAvailable) :
    (classify u).1.last_exception = u.st.last_exception := by
  rw [classify_unavailable u h]

theorem classify_st_exc_other (u : UpdateOut) (e : PyExc)
    (h : u.res = PyResult.exn e) (hne : e ≠ PyExc.inverterNotAvailable) :
    (classify u).1.last_exception = some e := by
  rw [classify_other u e h hne]

theorem classify_effs_ok (u : UpdateOut) (d : Nat)
    (h : u.res = PyResult.ok d) :
    (classify u).2 =
      if !u.st.last_update_success then [Effect.logInfo] else [] := by
  rw [classify_ok u d h]
  cases hl : u.st.last_update_success <;> simp [hl]

theorem classify_effs_other (u : UpdateOut) (e : PyExc)
    (h : u.res = PyResult.exn e) (hne : e ≠ PyExc.inverterNotAvailable) :
    (classify u).2 = [Effect.logError] := by
  rw [classify_other u e h hne]

/-! ### Claim theorems -/

/-- C1: for every refresh invocation that actually attempts a poll, and
every prior Snapshot, a failed poll (DeviceUnavailable/InverterNotAvailable
or any unexpected error) leaves the cached Snapshot `data` exactly as it
was, and a successful poll replaces it wholesale with the new reading. -/
theorem snapshot_preserved_unless_success (beh : ClientBehavior) (env : Env)
    (scheduled : Bool) (st st' : CoordState) (effs : List Effect)
    (hg : abortGuard st env scheduled = false)
    (hr : refresh beh env scheduled st = PyResult.ok (st', effs)) :
    (∀ e, pollResult beh st = PyResult.exn e → st'.data = st.data) ∧
    (∀ d, pollResult beh st = PyResult.ok d → st'.data = some d) := by
  have hst := refresh_state beh env scheduled st st' effs hg hr
  subst hst
  unfold pollResult
  constructor
  · intro e he
    rw [classify_st_data_exn _ e he, updateData_st_data]
  · intro d hd
    exact classify_st_data_ok _ d hd

/-- Witness for C1: with the device unreachable (timeout), the Snapshot
`some 7` survives the failed poll unchanged. -/
theorem snapshot_preserved_unless_success_witness :
    (⟨some 7, false, none, some 1, true, false⟩ : CoordState).data =
      (⟨some 7, true, none, some 1, true, false⟩ : CoordState).data :=
  (snapshot_preserved_unless_success
    ⟨PyResult.ok 1, PyResult.exn PyExc.timeoutError⟩ ⟨false, true, false⟩
    false ⟨some 7, true, none, some 1, true, false⟩
    ⟨some 7, false, none, some 1, true, false⟩
    [Effect.unsubRefresh, Effect.debounceCancel, Effect.callGetOutputData,
      Effect.scheduleRefresh, Effect.notifyListeners]
    (by decide) (by decide)).1 PyExc.inverterNotAvailable (by decide)

/-- C2: if this poll fails and the previous attempt had also failed
(`last_update_success` false on entry), the refresh returns early and no
subscriber notification is emitted. -/
theorem no_notify_when_both_polls_fail (beh : ClientBehavior) (env : Env)
    (scheduled : Bool) (st st' : CoordState) (effs : List Effect) (e : PyExc)
    (hg : abortGuard st env scheduled = false)
    (hprev : st.last_update_success = false)
    (hfail : pollResult beh st = PyResult.exn e)
    (hr : refresh beh env scheduled st = PyResult.ok (st', effs)) :
    Effect.notifyListeners ∉ effs := by
  unfold pollResult at hfail
  rw [refresh_eq beh env scheduled st hg] at hr
  simp only [classify_st_lus_exn _ e hfail, hprev, Bool.not_false,
    Bool.and_self, if_true] at hr
  simp only [PyResult.ok.injEq, Prod.mk.injEq] at hr
  rw [← hr.2]
  intro hmem
  rcases List.mem_append.1 hmem with hmem | hmem
  · rcases List.mem_append.1 hmem with hmem | hmem
    · rcases List.mem_append.1 hmem with hmem | hmem
      · simp at hmem
      · exact notify_not_in_updateData beh st hmem
    · exact notify_not_in_classify _ hmem
  · exact notify_not_in_finallyEffs env hmem

/-- Witness for C2: two consecutive timeouts; the second refresh's effect
trace holds no listener notification. -/
theorem no_notify_when_both_polls_fail_witness :
    Effect.notifyListeners ∉
      [Effect.unsubRefresh, Effect.debounceCancel, Effect.callGetOutputData,
        Effect.scheduleRefresh] :=
  no_notify_when_both_polls_fail
    ⟨PyResult.ok 1, PyResult.exn PyExc.timeoutError⟩ ⟨false, true, false⟩
    false ⟨some 7, false, none, some 1, true, false⟩
    ⟨some 7, false, none, some 1, true, false⟩
    [Effect.unsubRefresh, Effect.debounceCancel, Effect.callGetOutputData,
      Effect.scheduleRefresh]
    PyExc.inverterNotAvailable (by decide) (by decide) (by decide) (by decide)

/-- C3: a successful poll after a failed one sets `last_update_success`,
logs the info-severity recovery notice, and notifies all subscribers — even
when the fresh Snapshot has the same content as the old one (the witness
uses identical content). -/
theorem recovery_marks_success_and_notifies (beh : ClientBehavior)
    (env : Env) (scheduled : Bool) (st st' : CoordState) (effs : List Effect)
    (d : Nat) (hg : abortGuard st env scheduled = false)
    (hprev : st.last_update_success = false)
    (hok : pollResult beh st = PyResult.ok d)
    (hr : refresh beh env scheduled st = PyResult.ok (st', effs)) :
    st'.last_update_success = true ∧ Effect.logInfo ∈ effs ∧
      Effect.notifyListeners ∈ effs := by
  unfold pollResult at hok
  have hst := refresh_state beh env scheduled st st' effs hg hr
  have hlus : st'.last_update_success = true := by
    rw [hst]; exact classify_st_lus_ok _ d hok
  refine ⟨hlus, ?_⟩
  have hulus : (updateData beh st).st.last_update_success = false := by
    rw [updateData_st_lus]; exact hprev
  have hc2 : (classify (updateData beh st)).2 = [Effect.logInfo] := by
    rw [classify_effs_ok _ d hok, hulus]; simp
  have hclus : (classify (updateData beh st)).1.last_update_success = true :=
    classify_st_lus_ok _ d hok
  have hnd : notifyDecision (classify (updateData beh st)).1
      false st.data = true := by
    unfold notifyDecision
    rw [hclus]
    simp
  have hcalc : refresh beh env scheduled st =
      PyResult.ok ((classify (updateData beh st)).1,
        ([Effect.unsubRefresh, Effect.debounceCancel]
          ++ (updateData beh st).effs ++ (classify (updateData beh st)).2
          ++ finallyEffs env) ++ [Effect.notifyListeners]) := by
    rw [refresh_eq beh env scheduled st hg]
    simp [hclus, hprev, hnd]
  rw [hcalc] at hr
  simp only [PyResult.ok.injEq, Prod.mk.injEq] at hr
  rw [← hr.2]
  simp [hc2]

/-- Witness for C3: recovery poll returning the same payload (7) as the
cached Snapshot still logs the recovery and notifies listeners. -/
theorem recovery_marks_success_and_notifies_witness :
    (⟨some 7, true, none, some 1, true, false⟩ : CoordState).last_update_success
        = true ∧
      Effect.logInfo ∈
        [Effect.unsubRefresh, Effect.debounceCancel, Effect.callGetOutputData,
          Effect.logInfo, Effect.scheduleRefresh, Effect.notifyListeners] ∧
      Effect.notifyListeners ∈
        [Effect.unsubRefresh, Effect.debounceCancel, Effect.callGetOutputData,
          Effect.logInfo, Effect.scheduleRefresh, Effect.notifyListeners] :=
  recovery_marks_success_and_notifies
    ⟨PyResult.ok 1, PyResult.ok 7⟩ ⟨false, true, false⟩ false
    ⟨some 7, false, none, some 1, true, false⟩
    ⟨some 7, true, none, some 1, true, false⟩
    [Effect.unsubRefresh, Effect.debounceCancel, Effect.callGetOutputData,
      Effect.logInfo, Effect.scheduleRefresh, Effect.notifyListeners]
    7 (by decide) (by decide) (by decide) (by decide)

/-- C6: when a shutdown has been requested, or the invocation is scheduled
while the host is stopping, refresh returns the state unchanged and its
trace holds only the two pre-guard cancellations — no device-client call,
no rescheduling, no notification, no change to Snapshot,
`last_update_success`, `last_exception` or `device_info`. -/
theorem shutdown_aborts_refresh (beh : ClientBehavior) (env : Env)
    (scheduled : Bool) (st : CoordState)
    (hg : abortGuard st env scheduled = true) :
    refresh beh env scheduled st =
      PyResult.ok (st, [Effect.unsubRefresh, Effect.debounceCancel]) := by
  unfold refresh
  rw [hg]
  simp

/-- Witness for C6: a scheduled invocation while the host is stopping is a
no-op apart from the two cancellations. -/
theorem shutdown_aborts_refresh_witness :
    refresh ⟨PyResult.ok 1, PyResult.ok 9⟩ ⟨true, true, false⟩ true
        ⟨some 7, true, none, some 1, true, false⟩ =
      PyResult.ok (⟨some 7, true, none, some 1, true, false⟩,
        [Effect.unsubRefresh, Effect.debounceCancel]) :=
  shutdown_aborts_refresh ⟨PyResult.ok 1, PyResult.ok 9⟩ ⟨true, true, false⟩
    true ⟨some 7, true, none, some 1, true, false⟩ (by decide)

/-- C7: the refresh step never raises to its caller for any device-client
behaviour; a failed poll is absorbed into `last_update_success`, and an
unexpected error is additionally recorded in `last_exception` and logged at
error severity. -/
theorem refresh_absorbs_all_failures (beh : ClientBehavior) (env : Env)
    (scheduled : Bool) (st : CoordState) :
    (∃ out, refresh beh env scheduled st = PyResult.ok out) ∧
    (∀ st' effs e, abortGuard st env scheduled = false →
      refresh beh env scheduled st = PyResult.ok (st', effs) →
      pollResult beh st = PyResult.exn e →
      st'.last_update_success = false ∧
        (e ≠ PyExc.inverterNotAvailable →
          st'.last_exception = some e ∧ Effect.logError ∈ effs)) := by
  constructor
  · cases hg : abortGuard st env scheduled with
    | true =>
      exact ⟨(st, [Effect.unsubRefresh, Effect.debounceCancel]),
        by unfold refresh; rw [hg]; simp⟩
    | false =>
      rw [refresh_eq beh env scheduled st hg]
      by_cases h1 : (!(classify (updateData beh st)).1.last_update_success
          && !st.last_update_success) = true
      · rw [if_pos h1]; exact ⟨_, rfl⟩
      · rw [if_neg h1]
        by_cases h2 : notifyDecision (classify (updateData beh st)).1
            st.last_update_success st.data = true
        · rw [if_pos h2]; exact ⟨_, rfl⟩
        · rw [if_neg h2]; exact ⟨_, rfl⟩
  · intro st' effs e hg hr hfail
    unfold pollResult at hfail
    have hst := refresh_state beh env scheduled st st' effs hg hr
    constructor
    · rw [hst]; exact classify_st_lus_exn _ e hfail
    · intro hne
      refine ⟨by rw [hst]; exact classify_st_exc_other _ e hfail hne, ?_⟩
      obtain ⟨tail, _, heffs⟩ :=
        refresh_effs beh env scheduled st st' effs hg hr
      rw [heffs, classify_effs_other _ e hfail hne]
      simp

/-- Witness for C7: an unexpected error (code 3) from the device client is
absorbed: the flag drops, the error is recorded, and the error log appears
in the trace. -/
theorem refresh_absorbs_all_failures_witness :
    (⟨some 7, false, some (PyExc.other 3), some 1, true,
        false⟩ : CoordState).last_update_success = false ∧
      (⟨some 7, false, some (PyExc.other 3), some 1, true,
          false⟩ : CoordState).last_exception = some (PyExc.other 3) ∧
        Effect.logError ∈
          [Effect.unsubRefresh, Effect.debounceCancel, Effect.callGetOutputData,
            Effect.logError, Effect.scheduleRefresh, Effect.notifyListeners] := by
  have h := (refresh_absorbs_all_failures
    ⟨PyResult.ok 1, PyResult.exn (PyExc.other 3)⟩ ⟨false, true, false⟩ false
    ⟨some 7, true, none, some 1, true, false⟩).2
    ⟨some 7, false, some (PyExc.other 3), some 1, true, false⟩
    [Effect.unsubRefresh, Effect.debounceCancel, Effect.callGetOutputData,
      Effect.logError, Effect.scheduleRefresh, Effect.notifyListeners]
    (PyExc.other 3) (by decide) (by decide) (by decide)
  exact ⟨h.1, h.2 (by decide)⟩

/-- C9: in every non-aborted refresh invocation, the next timer invocation
is arranged exactly when there are active subscribers and the host is not
stopping; and the coordinator's constructor defaults the polling interval
to 10 seconds when the caller supplies `None`. -/
theorem reschedule_iff_subscribers_and_not_stopping (beh : ClientBehavior)
    (env : Env) (scheduled : Bool) (st st' base : CoordState)
    (effs : List Effect) (hg : abortGuard st env scheduled = false)
    (hr : refresh beh env scheduled st = PyResult.ok (st', effs)) :
    (Effect.scheduleRefresh ∈ effs ↔
      env.has_listeners = true ∧ env.is_stopping = false) ∧
    (coordInit base none).1 = 10 := by
  refine ⟨?_, rfl⟩
  obtain ⟨tail, htail, heffs⟩ := refresh_effs beh env scheduled st st' effs hg hr
  rw [heffs]
  constructor
  · intro hmem
    rcases List.mem_append.1 hmem with hmem | hmem
    · rcases List.mem_append.1 hmem with hmem | hmem
      · rcases List.mem_append.1 hmem with hmem | hmem
        · rcases List.mem_append.1 hmem with hmem | hmem
          · simp at hmem
          · exact absurd hmem (schedule_not_in_updateData beh st)
        · exact absurd hmem (schedule_not_in_classify _)
      · exact (schedule_in_finallyEffs env).1 hmem
    · rcases htail with h | h <;> rw [h] at hmem <;> simp at hmem
  · intro hcond
    have : Effect.scheduleRefresh ∈ finallyEffs env :=
      (schedule_in_finallyEffs env).2 hcond
    simp [List.mem_append, this]

/-- Witness for C9: with one subscriber and the host running, the trace of a
failed poll still contains the reschedule effect; and `None` yields the
10-second default interval. -/
theorem reschedule_iff_subscribers_and_not_stopping_witness :
    (Effect.scheduleRefresh ∈
        [Effect.unsubRefresh, Effect.debounceCancel, Effect.callGetOutputData,
          Effect.scheduleRefresh] ↔
      (⟨false, true, false⟩ : Env).has_listeners = true ∧
        (⟨false, true, false⟩ : Env).is_stopping = false) ∧
    (coordInit ⟨none, true, none, none, false, false⟩ none).1 = 10 :=
  reschedule_iff_subscribers_and_not_stopping
    ⟨PyResult.ok 1, PyResult.exn PyExc.timeoutError⟩ ⟨false, true, false⟩
    false ⟨some 7, false, none, some 1, true, false⟩
    ⟨some 7, false, none, some 1, true, false⟩
    ⟨none, true, none, none, false, false⟩
    [Effect.unsubRefresh, Effect.debounceCancel, Effect.callGetOutputData,
      Effect.scheduleRefresh]
    (by decide) (by decide)

/-- C10: `last_exception` is written only by the unexpected-error branch; a
DeviceUnavailable failure and a successful poll (including a recovery) both
leave it exactly as it was, so it can point at a stale earlier error while
`last_update_success` is true. -/
theorem last_exception_only_set_on_unexpected (beh : ClientBehavior)
    (env : Env) (scheduled : Bool) (st st' : CoordState) (effs : List Effect)
    (hg : abortGuard st env scheduled = false)
    (hr : refresh beh env scheduled st = PyResult.ok (st', effs)) :
    (pollResult beh st = PyResult.exn PyExc.inverterNotAvailable →
      st'.last_exception = st.last_exception) ∧
    (∀ d, pollResult beh st = PyResult.ok d →
      st'.last_exception = st.last_exception) ∧
    (∀ e, e ≠ PyExc.inverterNotAvailable → pollResult beh st = PyResult.exn e →
      st'.last_exception = some e) := by
  have hst := refresh_state beh env scheduled st st' effs hg hr
  subst hst
  unfold pollResult
  refine ⟨?_, ?_, ?_⟩
  · intro h
    rw [classify_st_exc_unavailable _ h, updateData_st_exc]
  · intro d h
    rw [classify_st_exc_ok _ d h, updateData_st_exc]
  · intro e hne h
    exact classify_st_exc_other _ e h hne

/-- Witness for C10: after a recovery poll the stale recorded error
(code 3) is still referenced while the success flag is back to true. -/
theorem last_exception_only_set_on_unexpected_witness :
    (⟨some 9, true, some (PyExc.other 3), some 1, true,
        false⟩ : CoordState).last_exception =
      (⟨some 7, false, some (PyExc.other 3), some 1, true,
          false⟩ : CoordState).last_exception :=
  (last_exception_only_set_on_unexpected
    ⟨PyResult.ok 1, PyResult.ok 9⟩ ⟨false, true, false⟩ false
    ⟨some 7, false, some (PyExc.other 3), some 1, true, false⟩
    ⟨some 9, true, some (PyExc.other 3), some 1, true, false⟩
    [Effect.unsubRefresh, Effect.debounceCancel, Effect.callGetOutputData,
      Effect.logInfo, Effect.scheduleRefresh, Effect.notifyListeners]
    (by decide) (by decide)).2.1 9 (by decide)

theorem updateData_st_device_info_some (beh : ClientBehavior)
    (st : CoordState) (i : Nat) (hi : st.device_info = some i) :
    (updateData beh st).st.device_info = some i := by
  rw [updateData_st]
  simp [hi]

theorem updateData_effs_device_info_some (beh : ClientBehavior)
    (st : CoordState) (i : Nat) (hi : st.device_info = some i) :
    (updateData beh st).effs = [Effect.callGetOutputData] := by
  rw [updateData_effs]
  simp [hi]

theorem refresh_preserves_device_info (beh : ClientBehavior) (env : Env)
    (scheduled : Bool) (st st' : CoordState) (effs : List Effect) (i : Nat)
    (hi : st.device_info = some i)
    (hr : refresh beh env scheduled st = PyResult.ok (st', effs)) :
    st'.device_info = some i ∧ Effect.callGetDeviceInfo ∉ effs := by
  cases hg : abortGuard st env scheduled with
  | true =>
    unfold refresh at hr
    rw [hg] at hr
    simp only [if_true, PyResult.ok.injEq, Prod.mk.injEq] at hr
    rw [← hr.1, ← hr.2]
    exact ⟨hi, by decide⟩
  | false =>
    have hst := refresh_state beh env scheduled st st' effs hg hr
    obtain ⟨tail, htail, heffs⟩ :=
      refresh_effs beh env scheduled st st' effs hg hr
    constructor
    · rw [hst, classify_st_device_info]
      exact updateData_st_device_info_some beh st i hi
    · rw [heffs, updateData_effs_device_info_some beh st i hi]
      intro hmem
      rcases List.mem_append.1 hmem with hmem | hmem
      · rcases List.mem_append.1 hmem with hmem | hmem
        · rcases List.mem_append.1 hmem with hmem | hmem
          · rcases List.mem_append.1 hmem with hmem | hmem
            · simp at hmem
            · simp at hmem
          · exact deviceInfoCall_not_in_classify _ hmem
        · exact deviceInfoCall_not_in_finallyEffs env hmem
      · rcases htail with h | h <;> rw [h] at hmem <;> simp at hmem

theorem runRefresh_device_info_frozen (steps : List (ClientBehavior × Env × Bool))
    (st st' : CoordState) (effs : List Effect) (i : Nat)
    (hi : st.device_info = some i)
    (hr : runRefresh steps st = PyResult.ok (st', effs)) :
    st'.device_info = some i ∧ Effect.callGetDeviceInfo ∉ effs := by
  induction steps generalizing st st' effs with
  | nil =>
    unfold runRefresh at hr
    simp only [PyResult.ok.injEq, Prod.mk.injEq] at hr
    rw [← hr.1, ← hr.2]
    exact ⟨hi, by simp⟩
  | cons step rest ih =>
    unfold runRefresh at hr
    split at hr
    · simp at hr
    · rename_i st1 effs1 h1
      split at hr
      · simp at hr
      · rename_i st2 effs2 h2
        simp only [PyResult.ok.injEq, Prod.mk.injEq] at hr
        obtain ⟨hd1, hd2⟩ := refresh_preserves_device_info step.1 step.2.1
          step.2.2 st st1 effs1 i hi h1
        obtain ⟨he1, he2⟩ := ih st1 st2 effs2 hd1 h2
        constructor
        · rw [← hr.1]; exact he1
        · rw [← hr.2]
          intro hmem
          rcases List.mem_append.1 hmem with hmem | hmem
          · exact hd2 hmem
          · exact he2 hmem

/-- C4: the device-info fetch is attempted on a poll exactly when
`device_info` is still unset; a failing fetch is logged as a warning and
the data fetch still proceeds (and still succeeds when the data call
succeeds); a successful fetch stores the metadata; and from any state where
it is stored, no later refresh in the coordinator's lifetime ever calls
`get_device_info` again. -/
theorem device_info_fetched_once :
    (∀ beh st, Effect.callGetDeviceInfo ∈ (updateData beh st).effs ↔
      st.device_info = none) ∧
    (∀ beh st e, st.device_info = none →
      beh.deviceInfoResult = PyResult.exn e →
      Effect.logWarning ∈ (updateData beh st).effs ∧
      Effect.callGetOutputData ∈ (updateData beh st).effs ∧
      ∀ d, beh.outputDataResult = PyResult.ok d →
        (updateData beh st).res = PyResult.ok d) ∧
    (∀ beh st i, st.device_info = none →
      beh.deviceInfoResult = PyResult.ok i →
      (updateData beh st).st.device_info = some i) ∧
    (∀ steps st st' effs i, st.device_info = some i →
      runRefresh steps st = PyResult.ok (st', effs) →
      st'.device_info = some i ∧ Effect.callGetDeviceInfo ∉ effs) := by
  refine ⟨?_, ?_, ?_, ?_⟩
  · intro beh st
    rw [updateData_effs]
    cases hdi : st.device_info <;> cases hir : beh.deviceInfoResult <;> simp
  · intro beh st e hdi hir
    refine ⟨?_, ?_, ?_⟩
    · rw [updateData_effs]; simp [hdi, hir]
    · rw [updateData_effs]; simp [hdi, hir]
    · intro d h
      rw [updateData_res, h]
  · intro beh st i hdi hir
    rw [updateData_st]
    simp [hdi, hir]
  · intro steps st st' effs i hi hr
    exact runRefresh_device_info_frozen steps st st' effs i hi hr

/-- Witness for C4: a first poll whose metadata fetch fails (warned, data
still fetched), then a run of two further refreshes from a state with the
metadata stored, during which `get_device_info` is never called. -/
theorem device_info_fetched_once_witness :
    (Effect.callGetDeviceInfo ∈
        (updateData ⟨PyResult.exn PyExc.timeoutError, PyResult.ok 5⟩
          ⟨none, true, none, none, true, false⟩).effs ↔
      (⟨none, true, none, none, true, false⟩ : CoordState).device_info = none) ∧
    (Effect.logWarning ∈
        (updateData ⟨PyResult.exn PyExc.timeoutError, PyResult.ok 5⟩
          ⟨none, true, none, none, true, false⟩).effs) ∧
    ((updateData ⟨PyResult.ok 4, PyResult.ok 5⟩
        ⟨none, true, none, none, true, false⟩).st.device_info = some 4) ∧
    ((⟨some 5, true, none, some 4, true, false⟩ : CoordState).device_info
        = some 4 ∧
      Effect.callGetDeviceInfo ∉
        [Effect.unsubRefresh, Effect.debounceCancel, Effect.callGetOutputData,
          Effect.scheduleRefresh, Effect.notifyListeners,
          Effect.unsubRefresh, Effect.debounceCancel, Effect.callGetOutputData,
          Effect.scheduleRefresh, Effect.notifyListeners]) := by
  refine ⟨device_info_fetched_once.1 _ _, ?_, ?_, ?_⟩
  · exact (device_info_fetched_once.2.1
      ⟨PyResult.exn PyExc.timeoutError, PyResult.ok 5⟩
      ⟨none, true, none, none, true, false⟩ PyExc.timeoutError
      (by decide) (by decide)).1
  · exact device_info_fetched_once.2.2.1 ⟨PyResult.ok 4, PyResult.ok 5⟩
      ⟨none, true, none, none, true, false⟩ 4 (by decide) (by decide)
  · exact device_info_fetched_once.2.2.2
      [(⟨PyResult.ok 9, PyResult.ok 5⟩, ⟨false, true, false⟩, false),
        (⟨PyResult.ok 9, PyResult.ok 6⟩, ⟨false, true, false⟩, true)]
      ⟨some 5, true, none, some 4, true, false⟩
      ⟨some 6, true, none, some 4, true, false⟩
      [Effect.unsubRefresh, Effect.debounceCancel, Effect.callGetOutputData,
        Effect.scheduleRefresh, Effect.notifyListeners,
        Effect.unsubRefresh, Effect.debounceCancel, Effect.callGetOutputData,
        Effect.scheduleRefresh, Effect.notifyListeners]
      4 (by decide) (by decide)

/-- C5: the set_power service clamps the requested integer into
`[MIN_VALUE, MAX_VALUE]`: below the minimum the device client receives
exactly `MIN_VALUE` with a warning, above the maximum exactly `MAX_VALUE`
with a warning, and in range the unmodified value with no warning. -/
theorem set_power_clamped_into_range (f : Int → PyResult Unit)
    (power : Int) :
    (power < MIN_VALUE →
      sentPowers (set_power_service MIN_VALUE MAX_VALUE f power).1
          = [MIN_VALUE] ∧
        Effect.logWarning ∈ (set_power_service MIN_VALUE MAX_VALUE f power).1) ∧
    (power > MAX_VALUE →
      sentPowers (set_power_service MIN_VALUE MAX_VALUE f power).1
          = [MAX_VALUE] ∧
        Effect.logWarning ∈ (set_power_service MIN_VALUE MAX_VALUE f power).1) ∧
    (MIN_VALUE ≤ power → power ≤ MAX_VALUE →
      sentPowers (set_power_service MIN_VALUE MAX_VALUE f power).1
          = [power] ∧
        Effect.logWarning ∉ (set_power_service MIN_VALUE MAX_VALUE f power).1) := by
  refine ⟨fun h => ?_, fun h => ?_, fun h1 h2 => ?_⟩
  · simp [set_power_service, sentPowers, h]
  · have hn : ¬ power < MIN_VALUE := by
      unfold MIN_VALUE MAX_VALUE at *
      omega
    simp [set_power_service, sentPowers, hn, h]
  · have hn : ¬ power < MIN_VALUE := not_lt.mpr h1
    have hn2 : ¬ power > MAX_VALUE := not_lt.mpr h2
    simp [set_power_service, sentPowers, hn, hn2]

/-- Witness for C5: requests of 5, 150 and 50 against [20, 100]
respectively reach the device as 20 (warned), 100 (warned) and 50
(unwarned). -/
theorem set_power_clamped_into_range_witness :
    (sentPowers (set_power_service MIN_VALUE MAX_VALUE
        (fun _ => PyResult.ok ()) 5).1 = [MIN_VALUE] ∧
      Effect.logWarning ∈ (set_power_service MIN_VALUE MAX_VALUE
        (fun _ => PyResult.ok ()) 5).1) ∧
    (sentPowers (set_power_service MIN_VALUE MAX_VALUE
        (fun _ => PyResult.ok ()) 150).1 = [MAX_VALUE] ∧
      Effect.logWarning ∈ (set_power_service MIN_VALUE MAX_VALUE
        (fun _ => PyResult.ok ()) 150).1) ∧
    (sentPowers (set_power_service MIN_VALUE MAX_VALUE
        (fun _ => PyResult.ok ()) 50).1 = [50] ∧
      Effect.logWarning ∉ (set_power_service MIN_VALUE MAX_VALUE
        (fun _ => PyResult.ok ()) 50).1) :=
  ⟨(set_power_clamped_into_range (fun _ => PyResult.ok ()) 5).1 (by decide),
    (set_power_clamped_into_range (fun _ => PyResult.ok ()) 150).2.1 (by decide),
    (set_power_clamped_into_range (fun _ => PyResult.ok ()) 50).2.2
      (by decide) (by decide)⟩

/-- C8: the set_power service issues exactly one outbound device command
and returns the device client's outcome on it unmodified: no retry, no
catching, no translation — in particular any raised failure is exactly the
client's. -/
theorem set_power_error_propagates (minValue maxValue : Int)
    (f : Int → PyResult Unit) (power : Int) :
    ∃ p, sentPowers (set_power_service minValue maxValue f power).1 = [p] ∧
      (set_power_service minValue maxValue f power).2 = f p := by
  by_cases h1 : power < minValue
  · exact ⟨minValue, by simp [set_power_service, sentPowers, h1], by
      simp [set_power_service, h1]⟩
  · by_cases h2 : power > maxValue
    · exact ⟨maxValue, by simp [set_power_service, sentPowers, h1, h2], by
        simp [set_power_service, h1, h2]⟩
    · exact ⟨power, by simp [set_power_service, sentPowers, h1, h2], by
        simp [set_power_service, h1, h2]⟩
